import Mathlib

/-!
Verification development for the meta-engine subsystem of the repository:
schema definitions, the dynamic model (storage-mapper) factory, the route
factory's per-operation authorization resolution, the orchestrator registry
lifecycle, and the generic data-access (CRUD) semantics.

Python dictionaries are embedded as insertion-ordered association lists with
Python's assignment/deletion semantics; Python exceptions are embedded by
returning `Except` paired with the state reached when the exception
propagates (in-place mutations performed before the raise are kept, exactly
as in Python).
-/

namespace MetaEngine

/-- Python `dict` with `str` keys, embedded as an insertion-ordered
association list. -/
def Dict (α : Type) : Type := List (String × α)

namespace Dict

/-- Python `d.get(k)` / `d[k]` lookup: first (and, for dicts built only by
`set`/`erase`, unique) binding of the key. -/
def get? {α : Type} : Dict α → String → Option α
  | [], _ => none
  | (k, v) :: rest, key => if k = key then some v else get? rest key

/-- Python `d[k] = v`: replace the value in place when the key is present,
otherwise append the new binding at the end. -/
def set {α : Type} : Dict α → String → α → Dict α
  | [], key, v => [(key, v)]
  | (k, w) :: rest, key, v =>
      if k = key then (k, v) :: rest else (k, w) :: set rest key v

/-- Python `del d[k]`: drop every binding of the key. -/
def erase {α : Type} : Dict α → String → Dict α
  | [], _ => []
  | (k, w) :: rest, key => if k = key then erase rest key else (k, w) :: erase rest key

/-- Python `len(d)`. -/
def size {α : Type} (d : Dict α) : Nat := d.length

/-- Python `list(d.values())`. -/
def values {α : Type} (d : Dict α) : List α := d.map (·.2)

/-- Python `list(d.keys())`. -/
def keys {α : Type} (d : Dict α) : List String := d.map (·.1)

@[simp] theorem get?_set_self {α : Type} (d : Dict α) (k : String) (v : α) :
    (d.set k v).get? k = some v := by
  induction d with
  | nil => simp [set, get?]
  | cons hd tl ih =>
      obtain ⟨k', v'⟩ := hd
      by_cases h : k' = k <;> simp [set, get?, h, ih]

theorem get?_set_ne {α : Type} (d : Dict α) (k k' : String) (v : α) (h : k ≠ k') :
    (d.set k v).get? k' = d.get? k' := by
  induction d with
  | nil => simp [set, get?, h]
  | cons hd tl ih =>
      obtain ⟨k₀, v₀⟩ := hd
      by_cases h₀ : k₀ = k
      · subst h₀
        simp [set, get?, h]
      · simp [set, get?, h₀, ih]

@[simp] theorem get?_erase_self {α : Type} (d : Dict α) (k : String) :
    (d.erase k).get? k = none := by
  induction d with
  | nil => simp [erase, get?]
  | cons hd tl ih =>
      obtain ⟨k', v'⟩ := hd
      by_cases h : k' = k <;> simp [erase, get?, h, ih]

end Dict

instance {α : Type} [DecidableEq α] : DecidableEq (Dict α) :=
  inferInstanceAs (DecidableEq (List (String × α)))

/-! ## schema_definition.py -/

/-- Enum `FieldType` from `schema_definition.py`. -/
inductive FieldType where
  | string | text | integer | float | boolean
  | date | datetime | time
  | email | url | uuid | json
  | file | image
  | decimal | currency
  | choice | multi_choice
  deriving DecidableEq, Repr

/-- Enum `RelationshipType` from `schema_definition.py`. -/
inductive RelationshipType where
  | one_to_one | one_to_many | many_to_one | many_to_many
  deriving DecidableEq, Repr

/-- Model `FieldDefinition` from `schema_definition.py`, restricted to the
attributes the verified claims depend on (UI hints, permission levels and
numeric range bounds are omitted). -/
structure FieldDefinition where
  name : String
  field_type : FieldType
  required : Bool := false
  unique : Bool := false
  indexed : Bool := false
  max_length : Option Nat := none
  choices : Option (List String) := none
  relationship_type : Option RelationshipType := none
  related_schema : Option String := none
  foreign_key : Option String := none
  deriving DecidableEq, Repr

/-- Truthiness of Python `not v` on an `Optional[str]`: `None` and the empty
string are falsy. -/
def optStrFalsy : Option String → Bool
  | none => true
  | some s => s.isEmpty

/-- Truthiness of Python `not v` on an `Optional[list]`: `None` and the
empty list are falsy. -/
def optListFalsy {α : Type} : Option (List α) → Bool
  | none => true
  | some l => l.isEmpty

/-- Validator `FieldDefinition.validate_choices`: choice and multi-choice
fields must carry a non-empty choice list. -/
def FieldDefinition.validate_choices (f : FieldDefinition) : Except String Unit :=
  if (f.field_type = FieldType.choice ∨ f.field_type = FieldType.multi_choice)
      ∧ optListFalsy f.choices then
    .error "Choices must be provided for choice fields"
  else
    .ok ()

/-- Validator `FieldDefinition.validate_relationship_schema`: a field with a
relationship type must name its related schema. -/
def FieldDefinition.validate_relationship_schema (f : FieldDefinition) : Except String Unit :=
  if f.relationship_type.isSome ∧ optStrFalsy f.related_schema then
    .error "related_schema must be provided for relationship fields"
  else
    .ok ()

/-- Pydantic construction of one `FieldDefinition` from raw data: the field
validators run and the first failure aborts construction. -/
def FieldDefinition.make (f : FieldDefinition) : Except String FieldDefinition :=
  match f.validate_choices with
  | .error e => .error e
  | .ok _ =>
      match f.validate_relationship_schema with
      | .error e => .error e
      | .ok _ => .ok f

/-- ASCII model of the start character test of Python `str.isidentifier`. -/
def isIdentStart (c : Char) : Bool := c.isAlpha || c = '_'

/-- ASCII model of the continuation character test of Python
`str.isidentifier`. -/
def isIdentCont (c : Char) : Bool := c.isAlphanum || c = '_'

/-- ASCII model of Python `str.isidentifier`: non-empty, starts with a letter
or underscore, continues with letters, digits or underscores. -/
def pythonIsIdentifier (s : String) : Bool :=
  match s.data with
  | [] => false
  | c :: rest => isIdentStart c && rest.all isIdentCont

/-- Python `s.startswith("_")`, computed on the character list. -/
def strStartsWithUnderscore (s : String) : Bool :=
  match s.data with
  | [] => false
  | c :: _ => c = '_'

/-- Python `s.endswith(c)` for a single character, computed on the
character list. -/
def strEndsWithChar (s : String) (c : Char) : Bool :=
  match s.data.getLast? with
  | some d => d = c
  | none => false

/-- Python `s.lower()`, computed on the character list. -/
def strToLower (s : String) : String := ⟨s.data.map Char.toLower⟩

/-- Reserved system field names from `SchemaDefinition.validate_fields`. -/
def reservedFieldNames : List String :=
  ["id", "created_at", "updated_at", "is_deleted", "deleted_at"]

/-- Python `len(names) != len(set(names))`, computed directly as a duplicate
test on the name list. -/
def hasDuplicate : List String → Bool
  | [] => false
  | x :: xs => xs.contains x || hasDuplicate xs

/-- Validator `SchemaDefinition.validate_name`: the schema name must be a
valid Python identifier and must not start with an underscore. -/
def validateSchemaName (v : String) : Except String String :=
  if ¬ pythonIsIdentifier v then
    .error "Schema name must be a valid Python identifier"
  else if strStartsWithUnderscore v then
    .error "Schema name cannot start with underscore"
  else
    .ok v

/-- Validator `SchemaDefinition.validate_fields`: at least one field, unique
field names, and no reserved system field name. -/
def validateSchemaFields (v : List FieldDefinition) : Except String (List FieldDefinition) :=
  if v.isEmpty then
    .error "Schema must have at least one field"
  else if hasDuplicate (v.map (·.name)) then
    .error "Field names must be unique"
  else if v.any (fun f => reservedFieldNames.contains f.name) then
    .error "Field name is reserved"
  else
    .ok v

/-- Map `auth_config` from `SchemaDefinition`, with exactly the five keys the
route factory reads (each read supplies the default shown in the source). -/
structure AuthConfig where
  require_auth : Bool := true
  public_routes : List String := []
  protected_routes : List String := []
  read_public : Bool := false
  write_protected : Bool := true
  deriving DecidableEq, Repr

/-- Model `SchemaDefinition` from `schema_definition.py`, restricted to the
attributes the verified claims depend on. -/
structure SchemaDefinition where
  name : String
  version : String := "1.0.0"
  title : Option String := none
  fields : List FieldDefinition
  table_name : Option String := none
  plural_name : Option String := none
  enable_audit : Bool := true
  enable_soft_delete : Bool := true
  enable_timestamps : Bool := true
  auth_config : AuthConfig := {}
  deriving DecidableEq, Repr

/-- Validation of each nested field in declaration order; the first failing
field raises. -/
def validateFieldList : List FieldDefinition → Except String (List FieldDefinition)
  | [] => .ok []
  | f :: l =>
      match FieldDefinition.make f with
      | .error e => .error e
      | .ok g =>
          match validateFieldList l with
          | .error e => .error e
          | .ok gs => .ok (g :: gs)

/-- Pydantic construction of a `SchemaDefinition` from raw data: the `name`
validator, the nested field validations, then the `fields` validator; the
first failure raises and the schema value is never produced. -/
def SchemaDefinition.make (s : SchemaDefinition) : Except String SchemaDefinition :=
  match validateSchemaName s.name with
  | .error e => .error e
  | .ok name =>
      match validateFieldList s.fields with
      | .error e => .error e
      | .ok fs =>
          match validateSchemaFields fs with
          | .error e => .error e
          | .ok fields => .ok { s with name := name, fields := fields }

/-- ASCII model of Python `str.title()`: a letter directly after another
letter is lowercased, any other letter is uppercased. -/
def pythonTitleAux : List Char → Bool → List Char
  | [], _ => []
  | c :: rest, prevAlpha =>
      if c.isAlpha then
        (if prevAlpha then c.toLower else c.toUpper) :: pythonTitleAux rest true
      else
        c :: pythonTitleAux rest false

/-- ASCII model of Python `str.title()`. -/
def pythonTitle (s : String) : String := ⟨pythonTitleAux s.data false⟩

/-- Property `SchemaDefinition.model_name`: the derived dynamic model class
name. -/
def SchemaDefinition.model_name (s : SchemaDefinition) : String :=
  "Dynamic" ++ pythonTitle s.name

/-! ## route_factory.py: authorization resolution -/

/-- Dependency chosen by `RouteFactory._get_auth_dependency`:
`get_current_user` (authentication required) or `get_optional_user`
(no authentication required). -/
inductive AuthDep where
  | get_current_user
  | get_optional_user
  deriving DecidableEq, Repr

/-- Function `RouteFactory._get_auth_dependency` from `route_factory.py`:
resolves the auth dependency for one generated operation from the schema's
`auth_config`. -/
def get_auth_dependency (cfg : AuthConfig) (route_name : String) : AuthDep :=
  if cfg.public_routes.contains route_name then
    .get_optional_user
  else if cfg.protected_routes.contains route_name then
    .get_current_user
  else if cfg.read_public && ["list", "get", "count"].contains route_name then
    .get_optional_user
  else if cfg.write_protected && ["create", "update", "delete"].contains route_name then
    .get_current_user
  else if cfg.require_auth then
    .get_current_user
  else
    .get_optional_user

/-- Modelled from the spec's words (for comparison with
`get_auth_dependency`): the five-step authorization precedence of the claim,
expressed as the boolean "authentication is required": (1) operation in
`public_routes`, not required; (2) operation in `protected_routes`,
required; (3) `read_public` and a read operation, not required; (4)
`write_protected` and a write operation, required; (5) the `require_auth`
flag. -/
def authRequiredSpec (cfg : AuthConfig) (op : String) : Bool :=
  if cfg.public_routes.contains op then
    false
  else if cfg.protected_routes.contains op then
    true
  else if cfg.read_public && (op = "list" || op = "get" || op = "count") then
    false
  else if cfg.write_protected && (op = "create" || op = "update" || op = "delete") then
    true
  else
    cfg.require_auth

/-! ## model_factory.py: the storage mapper -/

/-- SQLAlchemy column types produced by
`DynamicModelFactory._get_sqlalchemy_type`; `stringT` carries the bound,
`numericT` the precision and scale. -/
inductive SQLType where
  | stringT (n : Nat) | textT | integerT | floatT | booleanT
  | dateT | datetimeT | timeT | uuidT | jsonT
  | numericT (precision scale : Nat)
  deriving DecidableEq, Repr

/-- Function `DynamicModelFactory._get_sqlalchemy_type`: the fixed mapping
from field types to SQLAlchemy column types (`field.max_length or 255`
falls back to 255 when the bound is absent or zero). -/
def get_sqlalchemy_type (f : FieldDefinition) : SQLType :=
  match f.field_type with
  | .string => .stringT (match f.max_length with | some n => if n = 0 then 255 else n | none => 255)
  | .text => .textT
  | .integer => .integerT
  | .float => .floatT
  | .boolean => .booleanT
  | .date => .dateT
  | .datetime => .datetimeT
  | .time => .timeT
  | .email => .stringT 255
  | .url => .stringT 2048
  | .uuid => .uuidT
  | .json => .jsonT
  | .decimal => .numericT 10 2
  | .currency => .numericT 10 2
  | .choice => .stringT 100
  | .multi_choice => .jsonT
  | .file => .stringT 500
  | .image => .stringT 500

/-- One SQLAlchemy `Column` as built by `DynamicModelFactory._create_column`
(the docstring and default value carried by the column are omitted). -/
structure ColumnSpec where
  name : String
  ctype : SQLType
  nullable : Bool
  unique : Bool
  indexed : Bool
  deriving DecidableEq, Repr

/-- Function `DynamicModelFactory._create_column`: relationship fields yield
no column; otherwise the mapped type with `nullable = not required` and the
`unique`/`indexed` flags. -/
def create_column (f : FieldDefinition) : Option ColumnSpec :=
  if f.relationship_type.isSome then
    none
  else
    some { name := f.name, ctype := get_sqlalchemy_type f,
           nullable := !f.required, unique := f.unique, indexed := f.indexed }

/-- First substitution pass of `DynamicModelFactory._camel_to_snake`:
Python `re.sub` with pattern `(.)([A-Z][a-z]+)` and replacement placing an
underscore between the two groups, scanning left to right without
rescanning replaced text. The fuel argument only bounds the recursion depth
(each step consumes at least one character, so the initial fuel
`l.length` is never exhausted); it keeps the recursion structural. -/
def camelSub1Fuel : Nat → List Char → List Char
  | 0, l => l
  | _ + 1, [] => []
  | _ + 1, [c] => [c]
  | fuel + 1, a :: b :: rest =>
      if b.isUpper ∧ (rest.headD ' ').isLower then
        a :: '_' :: b :: rest.takeWhile (·.isLower)
          ++ camelSub1Fuel fuel (rest.dropWhile (·.isLower))
      else
        a :: camelSub1Fuel fuel (b :: rest)

/-- First substitution pass of `DynamicModelFactory._camel_to_snake`. -/
def camelSub1 (l : List Char) : List Char := camelSub1Fuel l.length l

/-- Second substitution pass of `DynamicModelFactory._camel_to_snake`:
Python `re.sub` with pattern `([a-z0-9])([A-Z])`. -/
def camelSub2 : List Char → List Char
  | [] => []
  | [c] => [c]
  | a :: b :: rest =>
      if (a.isLower || a.isDigit) ∧ b.isUpper then
        a :: '_' :: b :: camelSub2 rest
      else
        a :: camelSub2 (b :: rest)

/-- Function `DynamicModelFactory._camel_to_snake`. -/
def camel_to_snake (name : String) : String :=
  ⟨(camelSub2 (camelSub1 name.data)).map Char.toLower⟩

/-- Table name chosen by `DynamicModelFactory._build_class_attributes`: the
explicit `table_name`, or the snake-cased schema name pluralized by
appending `s` when it does not already end in `s`. -/
def derivedTableName (schema : SchemaDefinition) : String :=
  match schema.table_name with
  | some t => t
  | none =>
      let t := camel_to_snake schema.name
      if strEndsWithChar t 's' then t else t ++ "s"

/-- Foreign-key columns added by `DynamicModelFactory._create_relationships`
for many-to-one and one-to-one fields: column `foreign_key or name + "_id"`
of integer type referencing `related_schema.lower() + "s.id"`. -/
def relationshipFkColumns (schema : SchemaDefinition) : List (String × String) :=
  schema.fields.filterMap fun f =>
    match f.relationship_type with
    | some RelationshipType.many_to_one | some RelationshipType.one_to_one =>
        some ((if optStrFalsy f.foreign_key then f.name ++ "_id" else f.foreign_key.getD ""),
              strToLower (f.related_schema.getD "") ++ "s.id")
    | _ => none

/-- Relationship attributes added by
`DynamicModelFactory._create_relationships` (field name together with the
target dynamic model name); many-to-many is skipped in the source. -/
def relationshipAttrs (schema : SchemaDefinition) : List (String × String) :=
  schema.fields.filterMap fun f =>
    match f.relationship_type with
    | none => none
    | some RelationshipType.many_to_many => none
    | some _ => some (f.name, "Dynamic" ++ pythonTitle (f.related_schema.getD ""))

/-- Table-level constraints from
`DynamicModelFactory._build_table_constraints`: one composite uniqueness
constraint when more than one field is unique, and one named index per
indexed field. -/
structure TableConstraints where
  composite_unique : Option (List String)
  indexes : List String
  deriving DecidableEq, Repr

/-- Function `DynamicModelFactory._build_table_constraints`. -/
def build_table_constraints (schema : SchemaDefinition) : TableConstraints :=
  let unique_fields := (schema.fields.filter (·.unique)).map (·.name)
  { composite_unique := if unique_fields.length > 1 then some unique_fields else none,
    indexes := (schema.fields.filter (·.indexed)).map
      (fun f => "idx_" ++ strToLower schema.name ++ "_" ++ f.name) }

/-- Storage-mapped type produced by `DynamicModelFactory.create_model`: the
dynamically created SQLAlchemy model class, embedded as the data the class
carries (name, table, mixin flags, columns, relationships, constraints,
schema metadata). -/
structure DynModel where
  model_name : String
  tablename : String
  schema_name : String
  schema_version : String
  timestamps : Bool
  audit : Bool
  soft_delete : Bool
  columns : List ColumnSpec
  fk_columns : List (String × String)
  relationships : List (String × String)
  constraints : TableConstraints
  deriving DecidableEq, Repr

/-- Construction of the model class performed inside
`DynamicModelFactory.create_model` once the cache misses: mixin selection
from the feature flags, per-field columns, relationship attributes and
table constraints. -/
def buildModel (schema : SchemaDefinition) : DynModel :=
  { model_name := schema.model_name,
    tablename := derivedTableName schema,
    schema_name := schema.name,
    schema_version := schema.version,
    timestamps := schema.enable_timestamps,
    audit := schema.enable_audit,
    soft_delete := schema.enable_soft_delete,
    columns := schema.fields.filterMap create_column,
    fk_columns := relationshipFkColumns schema,
    relationships := relationshipAttrs schema,
    constraints := build_table_constraints schema }

/-- State of a `DynamicModelFactory` (`_created_models`, `_schema_cache`),
together with the table names already registered on the shared declarative
`Base` metadata: declaring a second mapped class for an already-defined
table name makes the `type(...)` call raise, which is the failure mode of
this stage. -/
structure FactoryState where
  created_models : Dict DynModel := []
  schema_cache : Dict SchemaDefinition := []
  tables : List String := []
  deriving DecidableEq

/-- Method `DynamicModelFactory.create_model`: return the cached model when
the model name was already created; otherwise cache the schema, then create
the class (raising when the derived table name is already defined on the
declarative base) and cache it. The returned state is the factory state
after the call, also when the call raises. -/
def create_model (st : FactoryState) (schema : SchemaDefinition) :
    Except String DynModel × FactoryState :=
  match st.created_models.get? schema.model_name with
  | some m => (.ok m, st)
  | none =>
      let st := { st with schema_cache := st.schema_cache.set schema.model_name schema }
      let tname := derivedTableName schema
      if st.tables.contains tname then
        (.error ("Table '" ++ tname ++ "' is already defined for this MetaData instance"), st)
      else
        let m := buildModel schema
        (.ok m, { st with created_models := st.created_models.set schema.model_name m,
                          tables := st.tables ++ [tname] })

/-! ## crud_service.py (absent from the sources): the generic data-access
service, modelled from the spec -/

/-- Modelled from the spec: a stored record of the generic data-access
service (`crud_service.py` is absent from the sources) — a system-assigned
integer identifier, the user field values, and the soft-delete fields. -/
structure Record where
  id : Nat
  values : Dict String := []
  is_deleted : Bool := false
  deleted_at : Option Nat := none
  deriving DecidableEq

/-- Modelled from the spec: `QueryParams` shared by list and count
(`crud_service.py` is absent from the sources): skip, limit, search term,
explicit search fields, and the `include_deleted` flag, which defaults to
excluding soft-deleted records. -/
structure QueryParams where
  skip : Nat := 0
  limit : Nat := 100
  search : Option String := none
  search_fields : Option (List String) := none
  include_deleted : Bool := false
  deriving DecidableEq

/-- Modelled from the spec: `GenericCRUDService(model, schema)` is the
data-access service bound to one schema's storage mapping
(`crud_service.py` is absent from the sources). -/
structure GenericCRUDService where
  model : DynModel
  schema : SchemaDefinition
  deriving DecidableEq

/-- Test whether the second list starts with the first. -/
def startsWithList {α : Type} [DecidableEq α] : List α → List α → Bool
  | [], _ => true
  | _ :: _, [] => false
  | a :: as, b :: bs => a = b && startsWithList as bs

/-- Test whether the first list occurs as a contiguous run inside the
second (the substring test). -/
def containsRun {α : Type} [DecidableEq α] (needle : List α) : List α → Bool
  | [] => needle.isEmpty
  | x :: xs => startsWithList needle (x :: xs) || containsRun needle xs

/-- Modelled from the spec: the case-insensitive substring search of
list/count over the explicit search fields, or over all stored textual
fields when unspecified (`crud_service.py` is absent from the sources). -/
def searchMatches (params : QueryParams) (r : Record) : Bool :=
  match params.search with
  | none => true
  | some term =>
      let flds := match params.search_fields with
        | some fs => fs
        | none => r.values.keys
      flds.any fun fname =>
        match r.values.get? fname with
        | some v => containsRun (strToLower term).data (strToLower v).data
        | none => false

/-- Modelled from the spec: the record filter shared by list and count — a
soft-deleted record is excluded unless `include_deleted` is set (the
soft-delete fields exist only when the schema enables soft delete), and the
search term must match (`crud_service.py` is absent from the sources). -/
def GenericCRUDService.visible (svc : GenericCRUDService) (params : QueryParams)
    (r : Record) : Bool :=
  (params.include_deleted || !(svc.schema.enable_soft_delete && r.is_deleted))
    && searchMatches params r

/-- Modelled from the spec: `list(queryParams)` — the matching records in
identifier order, paginated by skip and limit (`crud_service.py` is absent
from the sources). -/
def GenericCRUDService.list (svc : GenericCRUDService) (storage : List Record)
    (params : QueryParams) : List Record :=
  ((storage.filter (svc.visible params)).drop params.skip).take params.limit

/-- Modelled from the spec: `count(queryParams)` — the number of matching
records, ignoring pagination (`crud_service.py` is absent from the
sources). -/
def GenericCRUDService.count (svc : GenericCRUDService) (storage : List Record)
    (params : QueryParams) : Nat :=
  (storage.filter (svc.visible params)).length

/-- Modelled from the spec: `get(id)` — the record with the identifier,
excluded when soft-deleted and `include_deleted` is not set
(`crud_service.py` is absent from the sources). -/
def GenericCRUDService.getRecord (svc : GenericCRUDService) (storage : List Record)
    (record_id : Nat) (include_deleted : Bool) : Option Record :=
  storage.find? fun r =>
    r.id = record_id && (include_deleted || !(svc.schema.enable_soft_delete && r.is_deleted))

/-- Modelled from the spec: `delete(id, hard)` — soft delete (the default)
flips `is_deleted` and stamps `deleted_at`, leaving the record in storage;
hard delete physically removes it; an unknown identifier returns the
not-found sentinel `false` (`crud_service.py` is absent from the
sources). -/
def GenericCRUDService.delete (svc : GenericCRUDService) (storage : List Record)
    (record_id : Nat) (hard : Bool) (now : Nat) : Bool × List Record :=
  match svc.getRecord storage record_id false with
  | none => (false, storage)
  | some _ =>
      if hard then
        (true, storage.filter (fun r => r.id ≠ record_id))
      else
        (true, storage.map fun r =>
          if r.id = record_id then { r with is_deleted := true, deleted_at := some now } else r)

/-! ## route_factory.py: generated routes and the list envelope -/

/-- Names of the six generated CRUD operations, in the order
`RouteFactory._create_crud_routes` creates them. -/
def crudRouteNames : List String := ["create", "list", "get", "update", "delete", "count"]

/-- State of a `RouteFactory`: the schema, the bound CRUD service, the
generated router (each CRUD operation with its resolved auth dependency)
and the custom-route table keyed by `"{method} {path}"`. The `router`
object is shared by reference with the orchestrator's `routers` entry in
the source. -/
structure RouteFactoryState where
  schema : SchemaDefinition
  crud_service : GenericCRUDService
  router : List (String × AuthDep)
  custom_routes : Dict String := []
  deriving DecidableEq

/-- Constructor `RouteFactory.__init__`: generates the six standard CRUD
routes, resolving each operation's auth dependency from the schema's
`auth_config`, and starts with no custom routes. -/
def RouteFactory.init (schema : SchemaDefinition) (crud : GenericCRUDService) :
    RouteFactoryState :=
  { schema := schema, crud_service := crud,
    router := crudRouteNames.map (fun op => (op, get_auth_dependency schema.auth_config op)),
    custom_routes := [] }

/-- Method `RouteFactory.add_custom_route`: registers the handler on the
router and stores it in `custom_routes` under the key
`"{method} {path}"`. -/
def RouteFactory.add_custom_route (rf : RouteFactoryState)
    (path method handler : String) : RouteFactoryState :=
  { rf with custom_routes := rf.custom_routes.set (method ++ " " ++ path) handler }

/-- Function `RouteFactory._model_to_response`: the response dictionary with
the record identifier, the schema fields present on the instance, and the
enterprise fields that exist on the model (here the soft-delete pair when
enabled; values are rendered as strings). -/
def model_to_response (schema : SchemaDefinition) (r : Record) : Dict String :=
  [("id", toString r.id)]
    ++ schema.fields.filterMap (fun f => (r.values.get? f.name).map (fun v => (f.name, v)))
    ++ (if schema.enable_soft_delete then
          [("is_deleted", toString r.is_deleted), ("deleted_at", toString r.deleted_at)]
        else [])

/-- Response envelope of the generated list route, with exactly the five
fields of `RouteFactory._create_list_response_model`. -/
structure ListResponse where
  items : List (Dict String)
  total : Nat
  skip : Nat
  limit : Nat
  has_next : Bool
  deriving DecidableEq

/-- Handler `list_records` of `RouteFactory._add_list_route`: builds one
`QueryParams` from the query string, fetches the records and the count with
the same parameters, and wraps them in the envelope with
`has_next = skip + limit < total`. -/
def list_records (svc : GenericCRUDService) (storage : List Record)
    (skip limit : Nat) (search : Option String) (search_fields : Option (List String)) :
    ListResponse :=
  let params : QueryParams :=
    { skip := skip, limit := limit, search := search, search_fields := search_fields }
  let records := svc.list storage params
  let total := svc.count storage params
  { items := records.map (model_to_response svc.schema),
    total := total, skip := skip, limit := limit,
    has_next := decide (skip + limit < total) }

/-! ## orchestrator.py: the registry -/

/-- State of a `MetaEngineOrchestrator`: the five dictionaries and the model
factory. -/
structure OrchestratorState where
  schemas : Dict SchemaDefinition := []
  models : Dict DynModel := []
  crud_services : Dict GenericCRUDService := []
  routers : Dict (List (String × AuthDep)) := []
  route_factories : Dict RouteFactoryState := []
  model_factory : FactoryState := {}
  deriving DecidableEq

/-- Fresh `MetaEngineOrchestrator()`. -/
def initialState : OrchestratorState := {}

/-- Method `MetaEngineOrchestrator.register_schema`: stores the schema, then
creates the dynamic model, the CRUD service, and the route factory with its
router, in that order. The `schemas` assignment precedes the model stage in
the source, so when model creation raises, the exception propagates with
the schema entry (and the factory's mutations) already in place, which the
error outcome records here. -/
def register_schema (st : OrchestratorState) (schema : SchemaDefinition) :
    Except String Unit × OrchestratorState :=
  match create_model st.model_factory schema with
  | (.error e, fst) =>
      (.error e, { st with schemas := st.schemas.set schema.name schema,
                           model_factory := fst })
  | (.ok model, fst) =>
      let crud : GenericCRUDService := { model := model, schema := schema }
      let rf := RouteFactory.init schema crud
      (.ok (), { st with
        schemas := st.schemas.set schema.name schema,
        models := st.models.set schema.name model,
        crud_services := st.crud_services.set schema.name crud,
        routers := st.routers.set schema.name rf.router,
        route_factories := st.route_factories.set schema.name rf,
        model_factory := fst })

/-- Method `MetaEngineOrchestrator.remove_schema`: returns `false` when the
name is unknown; otherwise deletes the entries of `schemas`, `models`,
`crud_services` and `routers`. The `route_factories` entry and the model
factory cache are not touched by the source. -/
def remove_schema (st : OrchestratorState) (name : String) :
    Bool × OrchestratorState :=
  if (st.schemas.get? name).isNone then
    (false, st)
  else
    (true, { st with schemas := st.schemas.erase name, models := st.models.erase name,
                     crud_services := st.crud_services.erase name,
                     routers := st.routers.erase name })

/-- Method `MetaEngineOrchestrator.update_schema`: removes the existing
registration of the name, when there is one, then registers the new
definition. -/
def update_schema (st : OrchestratorState) (schema : SchemaDefinition) :
    Except String Unit × OrchestratorState :=
  if (st.schemas.get? schema.name).isSome then
    register_schema (remove_schema st schema.name).2 schema
  else
    register_schema st schema

/-- Method `MetaEngineOrchestrator.register_custom_route`: raises when the
schema name has no route factory; otherwise delegates to
`RouteFactory.add_custom_route`. -/
def register_custom_route (st : OrchestratorState)
    (schema_name path method handler : String) :
    Except String Unit × OrchestratorState :=
  match st.route_factories.get? schema_name with
  | none => (.error ("Schema '" ++ schema_name ++ "' not found. Register schema first."), st)
  | some rf =>
      let rf := RouteFactory.add_custom_route rf path method handler
      (.ok (), { st with route_factories := st.route_factories.set schema_name rf })

/-- Dictionary returned by `MetaEngineOrchestrator.get_schema_custom_routes`. -/
def get_schema_custom_routes (st : OrchestratorState) (schema_name : String) :
    Dict String :=
  match st.route_factories.get? schema_name with
  | none => []
  | some rf => rf.custom_routes

/-- Statistics returned by `MetaEngineOrchestrator.get_system_stats`. -/
structure SystemStats where
  registered_schemas : Nat
  total_fields : Nat
  generated_models : Nat
  crud_services : Nat
  api_routers : Nat
  total_endpoints : Nat
  schemas : List String
  deriving DecidableEq

/-- Method `MetaEngineOrchestrator.get_system_stats`: aggregate counts; the
source computes `total_endpoints` as `len(self.schemas) * 6`. -/
def get_system_stats (st : OrchestratorState) : SystemStats :=
  { registered_schemas := st.schemas.size,
    total_fields := ((st.schemas.values).map (fun s => s.fields.length)).sum,
    generated_models := st.models.size,
    crud_services := st.crud_services.size,
    api_routers := st.routers.size,
    total_endpoints := st.schemas.size * 6,
    schemas := st.schemas.keys }

/-- Number of custom routes currently registered across all route
factories (the quantity named by the spec's endpoint-count property). -/
def totalCustomRoutes (st : OrchestratorState) : Nat :=
  ((st.route_factories.values).map (fun rf => rf.custom_routes.size)).sum

/-- Registry states reachable from a fresh orchestrator through the public
lifecycle operations. -/
inductive Reachable : OrchestratorState → Prop where
  | init : Reachable initialState
  | register {st} (schema : SchemaDefinition) :
      Reachable st → Reachable (register_schema st schema).2
  | remove {st} (name : String) :
      Reachable st → Reachable (remove_schema st name).2
  | update {st} (schema : SchemaDefinition) :
      Reachable st → Reachable (update_schema st schema).2
  | custom {st} (schema_name path method handler : String) :
      Reachable st → Reachable (register_custom_route st schema_name path method handler).2

deriving instance DecidableEq for Except

/-! ## Concrete fixtures used by counterexamples and witnesses -/

/-- Sample string field. -/
def titleField : FieldDefinition := { name := "title", field_type := FieldType.string }

/-- Sample integer field. -/
def priorityField : FieldDefinition := { name := "priority", field_type := FieldType.integer }

/-- Sample schema named `Task`, first definition. -/
def taskV1 : SchemaDefinition := { name := "Task", fields := [titleField] }

/-- Second definition under the same name `Task`, with a different field
set. -/
def taskV2 : SchemaDefinition := { name := "Task", fields := [priorityField] }

/-- Schema named `Tasks`: its derived model name `DynamicTasks` differs from
`DynamicTask`, but its derived table name `tasks` collides with the table
of `Task`. -/
def tasksSchema : SchemaDefinition := { name := "Tasks", fields := [titleField] }

/-- Registry state after registering `taskV1` on a fresh orchestrator. -/
def stTask : OrchestratorState := (register_schema initialState taskV1).2

/-- Registry state after additionally registering one custom route for
`Task`. -/
def stTaskCustom : OrchestratorState :=
  (register_custom_route stTask "Task" "/{record_id}/publish" "POST" "publish_handler").2

/-! ## Helper lemmas -/

theorem validateSchemaName_ok {v n : String} (h : validateSchemaName v = .ok n) :
    pythonIsIdentifier v = true ∧ strStartsWithUnderscore v = false := by
  unfold validateSchemaName at h
  by_cases h1 : pythonIsIdentifier v
  · by_cases h2 : strStartsWithUnderscore v <;> simp_all
  · simp_all

theorem fieldMake_ok {f g : FieldDefinition} (h : FieldDefinition.make f = .ok g) : g = f := by
  unfold FieldDefinition.make at h
  split at h
  · cases h
  · split at h
    · cases h
    · cases h
      rfl

theorem validateFieldList_ok {l fs : List FieldDefinition}
    (h : validateFieldList l = .ok fs) : fs = l := by
  induction l generalizing fs with
  | nil =>
      cases h
      rfl
  | cons a l ih =>
      unfold validateFieldList at h
      cases ha : FieldDefinition.make a with
      | error e => rw [ha] at h; cases h
      | ok b =>
          rw [ha] at h
          cases hl : validateFieldList l with
          | error e => rw [hl] at h; cases h
          | ok bs =>
              rw [hl] at h
              cases h
              rw [fieldMake_ok ha, ih hl]

theorem fieldMake_error_of_relationship {f : FieldDefinition}
    (h : f.relationship_type.isSome = true) (h2 : f.related_schema = none) :
    ∃ e, FieldDefinition.make f = .error e := by
  unfold FieldDefinition.make
  cases hc : f.validate_choices with
  | error e => exact ⟨e, rfl⟩
  | ok u =>
      refine ⟨"related_schema must be provided for relationship fields", ?_⟩
      have hrel : f.validate_relationship_schema
          = .error "related_schema must be provided for relationship fields" := by
        unfold FieldDefinition.validate_relationship_schema
        simp [h, h2, optStrFalsy]
      rw [hrel]

theorem validateFieldList_error {l : List FieldDefinition} {f : FieldDefinition}
    (hf : f ∈ l) (he : ∃ e, FieldDefinition.make f = .error e) :
    ∃ e, validateFieldList l = .error e := by
  induction l with
  | nil => cases hf
  | cons a l ih =>
      unfold validateFieldList
      cases ha : FieldDefinition.make a with
      | error e => exact ⟨e, rfl⟩
      | ok b =>
          rcases List.mem_cons.mp hf with rfl | hf'
          · obtain ⟨e, he⟩ := he
            rw [ha] at he
            cases he
          · obtain ⟨e, hl⟩ := ih hf'
            rw [hl]
            exact ⟨e, rfl⟩

theorem hasDuplicate_iff (l : List String) : hasDuplicate l = true ↔ ¬ l.Nodup := by
  induction l with
  | nil => simp [hasDuplicate]
  | cons x xs ih =>
      simp [hasDuplicate, List.nodup_cons, ih, or_iff_not_imp_left]

theorem validateSchemaFields_error {v : List FieldDefinition}
    (h : v = [] ∨ ¬ (v.map (·.name)).Nodup ∨ ∃ f ∈ v, f.name ∈ reservedFieldNames) :
    ∃ e, validateSchemaFields v = .error e := by
  unfold validateSchemaFields
  by_cases h1 : v.isEmpty
  · exact ⟨"Schema must have at least one field", by simp [h1]⟩
  · by_cases h2 : hasDuplicate (v.map (·.name))
    · exact ⟨"Field names must be unique", by simp [h1, h2]⟩
    · have h3 : v.any (fun f => reservedFieldNames.contains f.name) = true := by
        rcases h with h | h | ⟨f, hf, hr⟩
        · simp [h, List.isEmpty_nil] at h1
        · exact absurd ((hasDuplicate_iff _).mpr h) h2
        · simp only [List.any_eq_true]
          refine ⟨f, hf, ?_⟩
          simpa using hr
      exact ⟨"Field name is reserved", by rw [if_neg h1, if_neg h2, if_pos h3]⟩

/-! ## Claim theorems -/

/-- C1: for every auth configuration and operation, the authorization
dependency chosen by `get_auth_dependency` follows exactly the five-step
precedence of `authRequiredSpec` — public_routes first, then
protected_routes, then `read_public` for list/get/count, then
`write_protected` for create/update/delete, then the `require_auth`
fallback; in particular, for a schema with `read_public = true` and `"get"`
listed in `protected_routes` (and, per step one of the stated precedence,
not in `public_routes`), the get operation requires authentication. -/
theorem auth_dependency_follows_precedence :
    (∀ (cfg : AuthConfig) (op : String),
        (get_auth_dependency cfg op = AuthDep.get_current_user
          ↔ authRequiredSpec cfg op = true)) ∧
    get_auth_dependency
        { require_auth := true, public_routes := [], protected_routes := ["get"],
          read_public := true, write_protected := true } "get"
      = AuthDep.get_current_user := by
  refine ⟨fun cfg op => ?_, rfl⟩
  have hc : (["list", "get", "count"] : List String).contains op
      = (decide (op = "list") || decide (op = "get") || decide (op = "count")) := by
    by_cases h1 : op = "list" <;> by_cases h2 : op = "get" <;> by_cases h3 : op = "count" <;>
      simp [List.contains_cons, List.contains_nil, h1, h2, h3]
  have hw : (["create", "update", "delete"] : List String).contains op
      = (decide (op = "create") || decide (op = "update") || decide (op = "delete")) := by
    by_cases h1 : op = "create" <;> by_cases h2 : op = "update" <;> by_cases h3 : op = "delete" <;>
      simp [List.contains_cons, List.contains_nil, h1, h2, h3]
  unfold get_auth_dependency authRequiredSpec
  rw [hc, hw]
  split_ifs <;> simp_all

/-- C10: an operation listed in `public_routes` requires no authentication,
whatever `protected_routes`, `read_public`, `write_protected` and
`require_auth` say: the `public_routes` check of `get_auth_dependency` runs
first. -/
theorem public_routes_overrides_protected (cfg : AuthConfig) (op : String)
    (h : cfg.public_routes.contains op = true) :
    get_auth_dependency cfg op = AuthDep.get_optional_user := by
  unfold get_auth_dependency
  rw [if_pos h]

/-- Witness for C10: an operation listed in both `public_routes` and
`protected_routes` gets the optional-user dependency. -/
theorem public_routes_overrides_protected_witness :
    (({ require_auth := true, public_routes := ["get"], protected_routes := ["get"],
        read_public := false, write_protected := true } : AuthConfig).public_routes.contains "get"
      = true) ∧
    get_auth_dependency
        { require_auth := true, public_routes := ["get"], protected_routes := ["get"],
          read_public := false, write_protected := true } "get"
      = AuthDep.get_optional_user :=
  ⟨by decide, public_routes_overrides_protected _ "get" (by decide)⟩

/-- C7: constructing a `SchemaDefinition` raises a validation error at
construction time whenever the schema name is not a valid identifier or
starts with an underscore, the field list is empty, two fields share a
name, a field uses a reserved system name, or a field declares a
relationship type without a related schema. -/
theorem schema_construction_rejects_invalid (s : SchemaDefinition)
    (h : pythonIsIdentifier s.name = false ∨ strStartsWithUnderscore s.name = true ∨
         s.fields = [] ∨ ¬ (s.fields.map (·.name)).Nodup ∨
         (∃ f ∈ s.fields, f.name ∈ reservedFieldNames) ∨
         (∃ f ∈ s.fields, f.relationship_type.isSome = true ∧ f.related_schema = none)) :
    ∃ e, SchemaDefinition.make s = .error e := by
  unfold SchemaDefinition.make
  cases hn : validateSchemaName s.name with
  | error e => exact ⟨e, rfl⟩
  | ok name =>
      obtain ⟨hid, hus⟩ := validateSchemaName_ok hn
      cases hl : validateFieldList s.fields with
      | error e => exact ⟨e, rfl⟩
      | ok fs =>
          have hfs := validateFieldList_ok hl
          subst hfs
          have hrem : s.fields = [] ∨ ¬ (s.fields.map (·.name)).Nodup ∨
              (∃ f ∈ s.fields, f.name ∈ reservedFieldNames) := by
            rcases h with h | h | h | h | h | ⟨f, hf, hrel, hrs⟩
            · simp [h] at hid
            · simp [h] at hus
            · exact Or.inl h
            · exact Or.inr (Or.inl h)
            · exact Or.inr (Or.inr h)
            · obtain ⟨e, he⟩ := validateFieldList_error hf
                (fieldMake_error_of_relationship hrel hrs)
              rw [he] at hl
              cases hl
          obtain ⟨e, he⟩ := validateSchemaFields_error hrem
          exact ⟨e, by simp [he]⟩

/-- Witness for C7: a schema with an empty field list is rejected at
construction. -/
theorem schema_construction_rejects_invalid_witness :
    (({ name := "Task", fields := [] } : SchemaDefinition).fields = []) ∧
    ∃ e, SchemaDefinition.make { name := "Task", fields := [] } = .error e :=
  ⟨rfl, schema_construction_rejects_invalid _ (Or.inr (Or.inr (Or.inl rfl)))⟩

/-- C2 counterexample: registering `Tasks` after `Task` fails inside model
creation (the derived table name `tasks` is already defined on the shared
declarative base), yet the registry afterwards holds a `schemas` entry for
`Tasks` — the failed registration is not rolled back. -/
theorem register_schema_partial_registration_cex :
    (register_schema stTask tasksSchema).1
      = .error "Table 'tasks' is already defined for this MetaData instance" ∧
    (register_schema stTask tasksSchema).2.schemas.get? "Tasks" = some tasksSchema := by
  exact ⟨rfl, rfl⟩

/-- C2 amended: if `register_schema` fails, the registry afterwards contains
the new schema under its name in `schemas` (the entry is stored before the
failing stage), while `models`, `crud_services`, `routers` and
`route_factories` are left exactly as they were before the call. -/
theorem register_schema_failure_state (st : OrchestratorState)
    (schema : SchemaDefinition) (e : String)
    (h : (register_schema st schema).1 = .error e) :
    (register_schema st schema).2.schemas.get? schema.name = some schema ∧
    (register_schema st schema).2.models = st.models ∧
    (register_schema st schema).2.crud_services = st.crud_services ∧
    (register_schema st schema).2.routers = st.routers ∧
    (register_schema st schema).2.route_factories = st.route_factories := by
  unfold register_schema at h ⊢
  rcases hc : create_model st.model_factory schema with ⟨r, fst⟩
  cases r with
  | error e2 => simp [Dict.get?_set_self]
  | ok model =>
      rw [hc] at h
      simp at h

/-- Witness for the amended C2 at the `Task`/`Tasks` collision. -/
theorem register_schema_failure_state_witness :
    ((register_schema stTask tasksSchema).1
      = .error "Table 'tasks' is already defined for this MetaData instance") ∧
    ((register_schema stTask tasksSchema).2.schemas.get? tasksSchema.name = some tasksSchema ∧
     (register_schema stTask tasksSchema).2.models = stTask.models ∧
     (register_schema stTask tasksSchema).2.crud_services = stTask.crud_services ∧
     (register_schema stTask tasksSchema).2.routers = stTask.routers ∧
     (register_schema stTask tasksSchema).2.route_factories = stTask.route_factories) :=
  ⟨rfl, register_schema_failure_state stTask tasksSchema
    "Table 'tasks' is already defined for this MetaData instance" rfl⟩

/-- C3 counterexample: a reachable state with one registered schema and one
registered custom route has `total_endpoints = 6`, not
`6 * 1 + 1 = 7` — custom routes are not counted by
`get_system_stats`. -/
theorem stats_total_endpoints_cex :
    Reachable stTaskCustom ∧
    (get_system_stats stTaskCustom).total_endpoints
      ≠ 6 * stTaskCustom.schemas.size + totalCustomRoutes stTaskCustom := by
  refine ⟨?_, by decide⟩
  exact Reachable.custom "Task" "/{record_id}/publish" "POST" "publish_handler"
    (Reachable.register taskV1 Reachable.init)

/-- C3 amended: in every reachable registry state,
`get_system_stats().total_endpoints` equals 6 times the number of
registered schemas; custom routes registered via `register_custom_route`
are not included, and registering one leaves `total_endpoints`
unchanged. -/
theorem stats_total_endpoints (st : OrchestratorState) (_reach : Reachable st) :
    (get_system_stats st).total_endpoints = 6 * st.schemas.size ∧
    ∀ schema_name path method handler,
      (get_system_stats
        (register_custom_route st schema_name path method handler).2).total_endpoints
        = (get_system_stats st).total_endpoints := by
  constructor
  · simp [get_system_stats, Nat.mul_comm]
  · intro n p m hd
    cases hg : st.route_factories.get? n with
    | none => simp [register_custom_route, hg]
    | some rf => simp [register_custom_route, hg, get_system_stats]

/-- Witness for the amended C3 at the initial state. -/
theorem stats_total_endpoints_witness :
    (get_system_stats initialState).total_endpoints = 6 * initialState.schemas.size ∧
    ∀ schema_name path method handler,
      (get_system_stats
        (register_custom_route initialState schema_name path method handler).2).total_endpoints
        = (get_system_stats initialState).total_endpoints :=
  stats_total_endpoints initialState Reachable.init

/-- C4 counterexample: updating `Task` from `taskV1` to `taskV2` succeeds
and stores the new schema definition, but the model installed afterwards is
the one built for `taskV1` (returned by the factory cache), which differs
from the model `taskV2` would produce. -/
theorem update_schema_stale_model_cex :
    (update_schema stTask taskV2).1 = .ok () ∧
    (update_schema stTask taskV2).2.schemas.get? "Task" = some taskV2 ∧
    (update_schema stTask taskV2).2.models.get? "Task" = some (buildModel taskV1) ∧
    buildModel taskV1 ≠ buildModel taskV2 := by
  refine ⟨rfl, rfl, rfl, by decide⟩

/-- C4 amended: `update_schema` removes the registration and re-registers,
but when the model factory already caches a model under the schema's
derived model name, that cached model — built from the old definition — is
the one installed after the update; the stored schema definition itself is
the new one. -/
theorem update_schema_reuses_cached_model (st : OrchestratorState)
    (schema : SchemaDefinition) (m : DynModel)
    (h : st.model_factory.created_models.get? schema.model_name = some m) :
    (update_schema st schema).1 = .ok () ∧
    (update_schema st schema).2.schemas.get? schema.name = some schema ∧
    (update_schema st schema).2.models.get? schema.name = some m := by
  have key : ∀ (st2 : OrchestratorState),
      st2.model_factory.created_models.get? schema.model_name = some m →
      (register_schema st2 schema).1 = .ok () ∧
      (register_schema st2 schema).2.schemas.get? schema.name = some schema ∧
      (register_schema st2 schema).2.models.get? schema.name = some m := by
    intro st2 h2
    simp [register_schema, create_model, h2, Dict.get?_set_self]
  unfold update_schema
  by_cases hx : (st.schemas.get? schema.name).isSome = true
  · rw [if_pos hx]
    refine key _ ?_
    unfold remove_schema
    split
    · exact h
    · exact h
  · rw [if_neg hx]
    exact key _ h

/-- Witness for the amended C4 at the `Task` update. -/
theorem update_schema_reuses_cached_model_witness :
    (stTask.model_factory.created_models.get? taskV2.model_name = some (buildModel taskV1)) ∧
    ((update_schema stTask taskV2).1 = .ok () ∧
     (update_schema stTask taskV2).2.schemas.get? taskV2.name = some taskV2 ∧
     (update_schema stTask taskV2).2.models.get? taskV2.name = some (buildModel taskV1)) :=
  ⟨rfl, update_schema_reuses_cached_model stTask taskV2 (buildModel taskV1) rfl⟩

/-- C5, the code evaluated at the failing input: after `remove_schema`
succeeds for `Task` (its `schemas` entry is gone), `register_custom_route`
for `Task` still succeeds and stores the custom route, because
`remove_schema` leaves the `route_factories` entry in place. -/
theorem remove_schema_leaves_route_factory :
    (remove_schema stTask "Task").1 = true ∧
    (remove_schema stTask "Task").2.schemas.get? "Task" = none ∧
    (register_custom_route (remove_schema stTask "Task").2
      "Task" "/close" "POST" "close_handler").1 = .ok () ∧
    (get_schema_custom_routes
      (register_custom_route (remove_schema stTask "Task").2
        "Task" "/close" "POST" "close_handler").2 "Task").size = 1 := by
  exact ⟨rfl, rfl, rfl, rfl⟩

/-- C8: the storage mapping is idempotent and cached by schema name — when
one call of `create_model` succeeds with model `m`, a second call on the
resulting factory state with any schema of the same name returns exactly
`m` again and leaves the factory state unchanged (no rebuild). -/
theorem create_model_cached_idempotent (st st2 : FactoryState)
    (s1 s2 : SchemaDefinition) (m : DynModel)
    (h1 : create_model st s1 = (.ok m, st2))
    (hn : s2.name = s1.name) :
    create_model st2 s2 = (.ok m, st2) := by
  have hname : s2.model_name = s1.model_name := by
    unfold SchemaDefinition.model_name
    rw [hn]
  have hcache : st2.created_models.get? s1.model_name = some m := by
    unfold create_model at h1
    cases hg : st.created_models.get? s1.model_name with
    | some m0 =>
        rw [hg] at h1
        simp only [Prod.mk.injEq, Except.ok.injEq] at h1
        obtain ⟨hm, hst⟩ := h1
        subst hst
        rw [hg, hm]
    | none =>
        rw [hg] at h1
        simp only [Prod.mk.injEq] at h1
        split at h1
        · simp at h1
        · simp only [Prod.mk.injEq, Except.ok.injEq] at h1
          obtain ⟨hm, hst⟩ := h1
          subst hst
          rw [← hm]
          simp [Dict.get?_set_self]
  unfold create_model
  rw [hname, hcache]

/-- Witness for C8: creating the `Task` model twice (under two different
definitions sharing the name) returns the identical model and state. -/
theorem create_model_cached_idempotent_witness :
    create_model {} taskV1 = (.ok (buildModel taskV1), (create_model {} taskV1).2) ∧
    taskV2.name = taskV1.name ∧
    create_model (create_model {} taskV1).2 taskV2
      = (.ok (buildModel taskV1), (create_model {} taskV1).2) :=
  ⟨rfl, rfl, create_model_cached_idempotent {} (create_model {} taskV1).2 taskV1 taskV2
    (buildModel taskV1) rfl rfl⟩

/-- C9: the generated list route returns the envelope with exactly the
fields `items`, `total`, `skip`, `limit`, `has_next`, where `items` are the
records returned by the CRUD list for the request's query parameters,
`total` is the CRUD count for the same parameters, and `has_next` holds
exactly when `skip + limit < total`. -/
theorem list_route_envelope (svc : GenericCRUDService) (storage : List Record)
    (skip limit : Nat) (search : Option String) (sf : Option (List String)) :
    (list_records svc storage skip limit search sf).items
      = (svc.list storage
          { skip := skip, limit := limit, search := search, search_fields := sf }).map
          (model_to_response svc.schema) ∧
    (list_records svc storage skip limit search sf).total
      = svc.count storage { skip := skip, limit := limit, search := search, search_fields := sf } ∧
    (list_records svc storage skip limit search sf).skip = skip ∧
    (list_records svc storage skip limit search sf).limit = limit ∧
    ((list_records svc storage skip limit search sf).has_next = true
      ↔ skip + limit
          < svc.count storage
              { skip := skip, limit := limit, search := search, search_fields := sf }) := by
  refine ⟨rfl, rfl, rfl, rfl, ?_⟩
  simp [list_records]

theorem filterCongr {α : Type} {p q : α → Bool} :
    ∀ {l : List α}, (∀ x ∈ l, p x = q x) → l.filter p = l.filter q
  | [], _ => rfl
  | x :: xs, h => by
      have hx := h x (List.mem_cons_self x xs)
      have hxs : ∀ y ∈ xs, p y = q y := fun y hy => h y (List.mem_cons_of_mem x hy)
      simp only [List.filter_cons, hx, filterCongr hxs]

/-- Sample CRUD service bound to the `Task` schema (soft delete enabled by
default). -/
def demoSvc : GenericCRUDService := { model := buildModel taskV1, schema := taskV1 }

/-- Sample storage with two live records. -/
def demoStorage : List Record :=
  [{ id := 1, values := [("title", "alpha")] }, { id := 2, values := [("title", "beta")] }]

/-- C6: for a service whose schema has soft delete enabled and query
parameters that do not set `include_deleted`, (1) the list operation
returns no soft-deleted record, (2) the count operation counts only
non-deleted records, and (3) after a successful soft delete of a record
identifier, the default list contains no record with that identifier and
the default count ignores it, while a record with that identifier remains
in storage. -/
theorem soft_delete_excluded_by_default
    (svc : GenericCRUDService) (storage : List Record) (params : QueryParams)
    (rid now : Nat)
    (hsd : svc.schema.enable_soft_delete = true)
    (hinc : params.include_deleted = false) :
    (∀ r ∈ svc.list storage params, r.is_deleted = false) ∧
    svc.count storage params
      = (storage.filter (fun r => svc.visible params r && !r.is_deleted)).length ∧
    ((svc.delete storage rid false now).1 = true →
      (∀ r ∈ svc.list (svc.delete storage rid false now).2 params, r.id ≠ rid) ∧
      svc.count (svc.delete storage rid false now).2 params
        = ((svc.delete storage rid false now).2.filter
            (fun r => svc.visible params r && (r.id != rid))).length ∧
      ∃ r ∈ (svc.delete storage rid false now).2, r.id = rid) := by
  have hvis : ∀ r : Record, svc.visible params r = true → r.is_deleted = false := by
    intro r hv
    unfold GenericCRUDService.visible at hv
    rw [hinc, hsd] at hv
    simp only [Bool.false_or, Bool.true_and, Bool.and_eq_true, Bool.not_eq_true'] at hv
    exact hv.1
  have hlist : ∀ (store : List Record), ∀ r ∈ svc.list store params, r.is_deleted = false := by
    intro store r hr
    have hrf : r ∈ store.filter (svc.visible params) :=
      List.drop_subset _ _ (List.take_subset _ _ hr)
    exact hvis r (List.of_mem_filter hrf)
  refine ⟨hlist storage, ?_, ?_⟩
  · unfold GenericCRUDService.count
    congr 1
    apply filterCongr
    intro r _
    cases hd : r.is_deleted
    · simp
    · have hv : svc.visible params r = false := by
        cases hv : svc.visible params r
        · rfl
        · have := hvis r hv
          rw [hd] at this
          cases this
      simp [hv]
  · intro hdel
    cases hgr : svc.getRecord storage rid false with
    | none =>
        have hf : (svc.delete storage rid false now).1 = false := by
          unfold GenericCRUDService.delete
          rw [hgr]
        rw [hf] at hdel
        cases hdel
    | some r0 =>
        have hdd : (svc.delete storage rid false now)
            = (true, storage.map fun r =>
                if r.id = rid then { r with is_deleted := true, deleted_at := some now }
                else r) := by
          unfold GenericCRUDService.delete
          rw [hgr]
          rfl
        rw [hdd]
        simp only
        constructor
        · intro r hr hid
          have hrf : r ∈ (storage.map fun r =>
              if r.id = rid then { r with is_deleted := true, deleted_at := some now }
              else r).filter (svc.visible params) :=
            List.drop_subset _ _ (List.take_subset _ _ hr)
          have hnd : r.is_deleted = false := hvis r (List.of_mem_filter hrf)
          obtain ⟨r1, hr1, hfr⟩ := List.mem_map.mp (List.mem_of_mem_filter hrf)
          by_cases h1 : r1.id = rid
          · rw [if_pos h1] at hfr
            rw [← hfr] at hnd
            cases hnd
          · rw [if_neg h1] at hfr
            rw [← hfr] at hid
            exact h1 hid
        constructor
        · unfold GenericCRUDService.count
          congr 1
          apply filterCongr
          intro r hmem
          by_cases hrid : r.id = rid
          · have hdel1 : r.is_deleted = true := by
              obtain ⟨r1, hr1, hfr⟩ := List.mem_map.mp hmem
              by_cases h1 : r1.id = rid
              · rw [if_pos h1] at hfr
                rw [← hfr]
              · rw [if_neg h1] at hfr
                rw [← hfr] at hrid
                exact absurd hrid h1
            have hv : svc.visible params r = false := by
              cases hv : svc.visible params r
              · rfl
              · have := hvis r hv
                rw [hdel1] at this
                cases this
            simp [hv]
          · simp [bne_iff_ne, hrid]
        · have hp := List.find?_some hgr
          have hm := List.mem_of_find?_eq_some hgr
          simp only [Bool.and_eq_true, decide_eq_true_eq] at hp
          refine ⟨if r0.id = rid then { r0 with is_deleted := true, deleted_at := some now }
                   else r0, List.mem_map_of_mem _ hm, ?_⟩
          rw [if_pos hp.1]
          exact hp.1

/-- Witness for C6 on the sample `Task` service: soft-deleting record 1
removes it from default list and count results while it stays in
storage. -/
theorem soft_delete_excluded_by_default_witness :
    demoSvc.schema.enable_soft_delete = true ∧
    ({} : QueryParams).include_deleted = false ∧
    ((∀ r ∈ demoSvc.list demoStorage {}, r.is_deleted = false) ∧
     demoSvc.count demoStorage {}
       = (demoStorage.filter (fun r => demoSvc.visible {} r && !r.is_deleted)).length ∧
     ((demoSvc.delete demoStorage 1 false 5).1 = true →
       (∀ r ∈ demoSvc.list (demoSvc.delete demoStorage 1 false 5).2 {}, r.id ≠ 1) ∧
       demoSvc.count (demoSvc.delete demoStorage 1 false 5).2 {}
         = ((demoSvc.delete demoStorage 1 false 5).2.filter
             (fun r => demoSvc.visible {} r && (r.id != 1))).length ∧
       ∃ r ∈ (demoSvc.delete demoStorage 1 false 5).2, r.id = 1)) :=
  ⟨rfl, rfl, soft_delete_excluded_by_default demoSvc demoStorage {} 1 5 rfl rfl⟩

end MetaEngine
